import Mathlib

/-!
Verification of the aquaculture analysis core (`main.py`).

Numbers are modelled as exact rationals (`ℚ`). Python's `round` (banker's
rounding, half to even) is modelled by `pyRound` / `round_to`. Python
`datetime` values are modelled as rational "seconds since epoch"; each
occurrence of `datetime.now()` in the source becomes an explicit clock-reading
parameter, one per call site, and `timedelta.days` becomes `daysBetween`
(floor of the elapsed seconds divided by 86400).
-/

/-- Python `round(x)` to an integer: nearest integer, ties to even. -/
def pyRound (x : ℚ) : ℤ :=
  let f := ⌊x⌋
  let r := x - f
  if r < 1/2 then f
  else if 1/2 < r then f + 1
  else if f % 2 = 0 then f else f + 1

/-- Python `round(x, n)`: round to `n` decimal places, ties to even. -/
def round_to (n : ℕ) (x : ℚ) : ℚ :=
  (pyRound (x * 10 ^ n) : ℚ) / 10 ^ n

/-- `timedelta.days` of `now - start`, both in seconds: floor of elapsed days. -/
def daysBetween (start now : ℚ) : ℤ :=
  ⌊(now - start) / 86400⌋

/-- `WeatherData` dataclass of `main.py`. -/
structure WeatherData where
  temperature : ℚ
  condition : String
  wind_speed : ℚ
  precipitation : ℚ
  timestamp : ℚ
deriving DecidableEq

/-- `PondParameters` dataclass of `main.py`; `culture_start_date` in epoch seconds. -/
structure PondParameters where
  area : ℚ
  depth : ℚ
  stocking_density : ℤ
  culture_start_date : ℚ
  water_color : String
  shrimp_behavior : String
  secchi_disk : ℚ
  ph : ℚ
  location : String
deriving DecidableEq

/-- The dict returned by `_predict_growth`. -/
structure GrowthPrediction where
  daily_growth : ℚ
  weekly_growth : ℚ
  estimated_size : ℚ
deriving DecidableEq

/-- The dict returned by `_estimate_biomass`. -/
structure BiomassEstimation where
  estimated_population : ℤ
  survival_rate : ℚ
  estimated_biomass : ℚ
deriving DecidableEq

/-- The dict returned by `_assess_water_quality`. -/
structure WaterQuality where
  status : String
  issues : List String
deriving DecidableEq

/-- The dict returned by `_calculate_carrying_capacity`. -/
structure CarryingCapacity where
  max_biomass : ℚ
  volume : ℚ
deriving DecidableEq

/-- The dict returned by `_calculate_feed`; schedule entries are (time, percentage). -/
structure FeedingRecommendation where
  daily_feed_kg : ℚ
  feeding_schedule : List (String × ℤ)
deriving DecidableEq

/-- One entry of the list returned by `_generate_recommendations`. -/
structure Recommendation where
  issue : String
  action : String
  priority : String
deriving DecidableEq

/-- The dict returned by `analyze_pond`. -/
structure Report where
  days_of_culture : ℤ
  growth_prediction : GrowthPrediction
  biomass_estimation : BiomassEstimation
  water_quality : WaterQuality
  carrying_capacity : CarryingCapacity
  feeding_recommendation : FeedingRecommendation
  recommendations : List Recommendation
  confidence_score : ℤ
deriving DecidableEq

/-- `AquacultureManager.validate_input`. The loops append in insertion order:
categorical fields, then the five numeric ranges, then the future-date check.
`now` models the `datetime.now()` read at line 108. -/
def validate_input (p : PondParameters) (now : ℚ) : List String :=
  (if ["Clear", "Green", "Brown", "Other"].contains p.water_color then []
   else ["Invalid water_color. Must be one of: Clear, Green, Brown, Other"])
  ++ (if ["Active", "Lethargic", "Coming to Surface"].contains p.shrimp_behavior then []
   else ["Invalid shrimp_behavior. Must be one of: Active, Lethargic, Coming to Surface"])
  ++ (if 10 ≤ p.secchi_disk ∧ p.secchi_disk ≤ 60 then []
   else ["secchi_disk must be between 10 and 60"])
  ++ (if 6.0 ≤ p.ph ∧ p.ph ≤ 9.0 then []
   else ["ph must be between 6.0 and 9.0"])
  ++ (if 100 ≤ p.area ∧ p.area ≤ 10000 then []
   else ["area must be between 100 and 10000"])
  ++ (if 0.8 ≤ p.depth ∧ p.depth ≤ 2.5 then []
   else ["depth must be between 0.8 and 2.5"])
  ++ (if 15 ≤ p.stocking_density ∧ p.stocking_density ≤ 150 then []
   else ["stocking_density must be between 15 and 150"])
  ++ (if p.culture_start_date > now then ["Culture start date cannot be in the future"] else [])

/-- `AquacultureManager._assess_water_quality`. -/
def assess_water_quality (p : PondParameters) : WaterQuality :=
  let status := "Good"
  let issues : List String := []
  let si1 := if ¬(6.5 ≤ p.ph ∧ p.ph ≤ 8.5)
    then ("Poor", issues ++ ["pH out of optimal range"]) else (status, issues)
  let si2 := if p.secchi_disk < 20
    then ("Poor", si1.2 ++ ["Water transparency is too low"]) else si1
  { status := si2.1, issues := si2.2 }

/-- The unrounded `adjusted_growth` value of `_predict_growth`:
`base_growth * density_factor * depth_factor * temp_factor`. -/
def adjusted_growth (p : PondParameters) (weather : Option WeatherData) : ℚ :=
  let base_growth : ℚ := 0.028
  let density_factor : ℚ :=
    if p.stocking_density < 50 then 1.1
    else if p.stocking_density > 100 then 0.9 else 1.0
  let depth_factor : ℚ :=
    if p.depth < 1.2 then 0.9
    else if p.depth > 1.8 then 0.95 else 1.0
  let temp_factor : ℚ :=
    match weather with
    | some w => if w.temperature < 25 then 0.8 else if w.temperature > 32 then 0.7 else 1.0
    | none => 1.0
  base_growth * density_factor * depth_factor * temp_factor

/-- `AquacultureManager._predict_growth` (the returned dict). -/
def predict_growth (p : PondParameters) (weather : Option WeatherData) (days : ℤ) :
    GrowthPrediction :=
  let g := adjusted_growth p weather
  { daily_growth := round_to 4 g
    weekly_growth := round_to 4 (g * 7)
    estimated_size := round_to 4 (0.002 + g * days) }

/-- `AquacultureManager._estimate_survival_rate`. `now` models the
`datetime.now()` read at line 205. -/
def estimate_survival_rate (p : PondParameters) (now : ℚ) : ℚ :=
  let days := daysBetween p.culture_start_date now
  let base_survival : ℚ := 0.85
  let s1 := if p.stocking_density > 100 then base_survival * 0.95 else base_survival
  let s2 := if days > 60 then s1 * 0.98 else s1
  round_to 2 s2

/-- `AquacultureManager._estimate_biomass`. The `estimated_biomass` field
multiplies the UNROUNDED `estimated_population` float by the size, exactly as
line 200 of the source does. -/
def estimate_biomass (p : PondParameters) (growth : GrowthPrediction) (now : ℚ) :
    BiomassEstimation :=
  let survival_rate := estimate_survival_rate p now
  let estimated_population := p.area * p.stocking_density * survival_rate
  { estimated_population := pyRound estimated_population
    survival_rate := survival_rate
    estimated_biomass := round_to 2 (estimated_population * growth.estimated_size) / 1000 }

/-- `AquacultureManager._calculate_carrying_capacity`. -/
def calculate_carrying_capacity (p : PondParameters) : CarryingCapacity :=
  let volume := p.area * p.depth
  { max_biomass := round_to 2 (volume * 0.4)
    volume := round_to 2 volume }

/-- `AquacultureManager._calculate_feed`. -/
def calculate_feed (estimated_biomass : ℚ) : FeedingRecommendation :=
  let daily_feed := estimated_biomass * 0.03
  { daily_feed_kg := round_to 2 daily_feed
    feeding_schedule :=
      [("06:00", 15), ("09:00", 15), ("12:00", 15), ("15:00", 15), ("18:00", 20), ("21:00", 20)] }

/-- `AquacultureManager._generate_recommendations`. -/
def generate_recommendations (p : PondParameters) (weather : Option WeatherData)
    (water_quality : WaterQuality) (biomass_estimation : BiomassEstimation)
    (carrying_capacity : CarryingCapacity) : List Recommendation :=
  (if biomass_estimation.estimated_biomass > carrying_capacity.max_biomass * 0.8 then
    [{ issue := "Approaching Carrying Capacity"
       action := "Short term: consider partial harvest, increase aeration. Long term: plan water exchange or pond expansion"
       priority := "High" }]
   else [])
  ++ water_quality.issues.map (fun issue =>
      { issue := issue
        action := "Implement water quality management measures"
        priority := "High" })
  ++ (match weather with
      | some w =>
        if w.temperature > 32 then
          [{ issue := "High Temperature"
             action := "Increase aeration and monitor oxygen levels"
             priority := "Medium" }]
        else []
      | none => [])

/-- `AquacultureManager._calculate_confidence`. `now` models the
`datetime.now()` read at line 303. -/
def calculate_confidence (p : PondParameters) (weather : Option WeatherData) (now : ℚ) : ℤ :=
  let c0 : ℤ := 100
  let c1 := if weather.isNone then c0 - 20 else c0
  let c2 := if p.ph < 6.5 ∨ p.ph > 8.8 then c1 - 10 else c1
  let c3 := if p.secchi_disk < 15 ∨ p.secchi_disk > 55 then c2 - 10 else c2
  let c4 := if p.stocking_density > 120 then c3 - 10 else c3
  let days_of_culture := daysBetween p.culture_start_date now
  let c5 := if days_of_culture > 100 then c4 - 5 else c4
  max c5 0

/-- `AquacultureManager.analyze_pond`. The three clock parameters model the
three distinct `datetime.now()` reads reachable from one invocation:
`now1` at line 115 (`days_of_culture`), `now2` at line 205 (inside
`_estimate_survival_rate`, called from `_estimate_biomass`), and `now3` at
line 303 (inside `_calculate_confidence`). -/
def analyze_pond (p : PondParameters) (weather : Option WeatherData)
    (now1 now2 now3 : ℚ) : Report :=
  let days_of_culture := daysBetween p.culture_start_date now1
  let growth_prediction := predict_growth p weather days_of_culture
  let biomass_estimation := estimate_biomass p growth_prediction now2
  let water_quality := assess_water_quality p
  let carrying_capacity := calculate_carrying_capacity p
  let feeding_recommendation := calculate_feed biomass_estimation.estimated_biomass
  let recommendations := generate_recommendations p weather water_quality
    biomass_estimation carrying_capacity
  { days_of_culture := days_of_culture
    growth_prediction := growth_prediction
    biomass_estimation := biomass_estimation
    water_quality := water_quality
    carrying_capacity := carrying_capacity
    feeding_recommendation := feeding_recommendation
    recommendations := recommendations
    confidence_score := calculate_confidence p weather now3 }

/-! ## Rounding bounds and growth-rate bounds -/

theorem le_pyRound (x : ℚ) : x - 1/2 ≤ (pyRound x : ℚ) := by
  have h1 : ((⌊x⌋ : ℤ) : ℚ) ≤ x := Int.floor_le x
  have h2 : x < (⌊x⌋ : ℚ) + 1 := Int.lt_floor_add_one x
  simp only [pyRound]
  split_ifs <;> push_cast <;> linarith

theorem pyRound_le (x : ℚ) : (pyRound x : ℚ) ≤ x + 1/2 := by
  have h1 : ((⌊x⌋ : ℤ) : ℚ) ≤ x := Int.floor_le x
  have h2 : x < (⌊x⌋ : ℚ) + 1 := Int.lt_floor_add_one x
  simp only [pyRound]
  split_ifs <;> push_cast <;> linarith

/-- Python `round(x, n)` stays within half of the last kept decimal place. -/
theorem round_to_bounds (n : ℕ) (x : ℚ) :
    x - 1 / (2 * 10 ^ n) ≤ round_to n x ∧ round_to n x ≤ x + 1 / (2 * 10 ^ n) := by
  have hp : (0:ℚ) < 10 ^ n := by positivity
  have h1 := le_pyRound (x * 10 ^ n)
  have h2 := pyRound_le (x * 10 ^ n)
  have e1 : (x - 1 / (2 * 10 ^ n)) * 10 ^ n = x * 10 ^ n - 1/2 := by
    field_simp
    ring
  have e2 : (x + 1 / (2 * 10 ^ n)) * 10 ^ n = x * 10 ^ n + 1/2 := by
    field_simp
    ring
  unfold round_to
  constructor
  · rw [le_div_iff₀ hp, e1]
    linarith
  · rw [div_le_iff₀ hp, e2]
    linarith

/-- The adjusted growth rate is at least `0.028 * 0.9 * 0.9 * 0.7`. -/
theorem adjusted_growth_ge (p : PondParameters) (w : Option WeatherData) :
    0.015876 ≤ adjusted_growth p w := by
  simp only [adjusted_growth]
  rcases w with _ | w <;> simp only <;> split_ifs <;> norm_num

/-! ## Concrete inputs used for tests and counterexamples -/

/-- A valid pond whose unrounded population `101 * 15 * 0.85 = 1287.75` is not
an integer, separating the rounded from the unrounded population. -/
def pondA : PondParameters :=
  { area := 101, depth := 1.5, stocking_density := 15, culture_start_date := 0,
    water_color := "Clear", shrimp_behavior := "Active", secchi_disk := 30,
    ph := 7.5, location := "Ranipet" }

/-- A valid pond hitting density factor 1.1 and depth factor 0.95. -/
def pondB : PondParameters :=
  { area := 1000, depth := 2.0, stocking_density := 40, culture_start_date := 0,
    water_color := "Clear", shrimp_behavior := "Active", secchi_disk := 30,
    ph := 7.5, location := "Ranipet" }

/-- A hot-weather reading (temperature above 32 °C). -/
def weatherHot : WeatherData :=
  { temperature := 35, condition := "Sunny", wind_speed := 10, precipitation := 0,
    timestamp := 0 }

/-- The all-neutral pond of the spec's end-to-end scenario. -/
def pondC : PondParameters :=
  { area := 1000, depth := 1.5, stocking_density := 80, culture_start_date := 0,
    water_color := "Clear", shrimp_behavior := "Active", secchi_disk := 30,
    ph := 7.5, location := "Ranipet" }

/-- The pond of the spec's confidence example (density 130, pH 7, secchi 30). -/
def pondD : PondParameters :=
  { area := 1000, depth := 1.5, stocking_density := 130, culture_start_date := 0,
    water_color := "Clear", shrimp_behavior := "Active", secchi_disk := 30,
    ph := 7, location := "Ranipet" }

/-! ## Claim theorems -/

/-- Claim C5: the confidence score starts at 100 and subtracts, independently
and cumulatively, 20 without weather, 10 for pH outside (6.5, 8.8), 10 for
secchi outside (15, 55), 10 for stocking density above 120, and 5 for more
than 100 days of culture, clamped below at 0; it always lies in [0, 100], and
the spec's example (density 130, pH 7, secchi 30, no weather, 50 days)
scores 70. -/
theorem c5_confidence_score :
    (∀ (p : PondParameters) (w : Option WeatherData) (t : ℚ),
      calculate_confidence p w t =
        max (100 - (if w.isNone then 20 else 0)
          - (if p.ph < 6.5 ∨ p.ph > 8.8 then 10 else 0)
          - (if p.secchi_disk < 15 ∨ p.secchi_disk > 55 then 10 else 0)
          - (if p.stocking_density > 120 then 10 else 0)
          - (if daysBetween p.culture_start_date t > 100 then 5 else 0)) 0
      ∧ 0 ≤ calculate_confidence p w t ∧ calculate_confidence p w t ≤ 100)
    ∧ calculate_confidence pondD none (50 * 86400) = 70 := by
  constructor
  · intro p w t
    refine ⟨?_, ?_, ?_⟩
    · simp only [calculate_confidence]
      split_ifs <;> norm_num
    · simp only [calculate_confidence]
      split_ifs <;> omega
    · simp only [calculate_confidence]
      split_ifs <;> omega
  · norm_num [calculate_confidence, pondD, daysBetween]

/-- Claim C10: the survival rate is always one of 0.79, 0.81, 0.83, 0.85 (the
2-decimal roundings of 0.85 times the applicable factors 0.95 and 0.98), hence
a fraction strictly between 0 and 1. -/
theorem c10_survival_rate_values (p : PondParameters) (t : ℚ) :
    (estimate_survival_rate p t = 0.79 ∨ estimate_survival_rate p t = 0.81 ∨
     estimate_survival_rate p t = 0.83 ∨ estimate_survival_rate p t = 0.85)
    ∧ 0 < estimate_survival_rate p t ∧ estimate_survival_rate p t < 1 := by
  simp only [estimate_survival_rate]
  split_ifs <;> norm_num [round_to, pyRound]

/-- Claim C9: water quality is "Good" with an empty issue list iff pH lies in
[6.5, 8.5] and secchi depth is at least 20; a pH violation contributes exactly
"pH out of optimal range", low transparency contributes exactly
"Water transparency is too low" (in that order, both possible together), and
status is "Poor" exactly when some issue fires. -/
theorem c9_water_quality_characterization (p : PondParameters) :
    (((assess_water_quality p).status = "Good" ∧ (assess_water_quality p).issues = [])
      ↔ ((6.5 ≤ p.ph ∧ p.ph ≤ 8.5) ∧ 20 ≤ p.secchi_disk))
    ∧ (assess_water_quality p).issues =
        (if 6.5 ≤ p.ph ∧ p.ph ≤ 8.5 then [] else ["pH out of optimal range"])
        ++ (if p.secchi_disk < 20 then ["Water transparency is too low"] else [])
    ∧ ((assess_water_quality p).status = "Poor"
      ↔ ¬((6.5 ≤ p.ph ∧ p.ph ≤ 8.5) ∧ 20 ≤ p.secchi_disk)) := by
  simp only [assess_water_quality]
  by_cases h1 : 6.5 ≤ p.ph ∧ p.ph ≤ 8.5 <;> by_cases h2 : p.secchi_disk < 20
  · simp [h1, h2, not_le.mpr h2]
  · simp [h1, h2, not_lt.mp h2]
  · simp [h1, h2, not_le.mpr h2]
  · simp [h1, h2, not_lt.mp h2]

/-- Claim C7: holding the pond and weather fixed, the estimated size is
strictly increasing in the number of culture days, despite the 4-decimal
rounding (the daily growth rate is at least 0.015876 g, far above the rounding
granularity). -/
theorem c7_growth_monotone (p : PondParameters) (w : Option WeatherData) (d1 d2 : ℤ)
    (hd1 : 0 ≤ d1) (hlt : d1 < d2) :
    (predict_growth p w d1).estimated_size < (predict_growth p w d2).estimated_size := by
  have hg := adjusted_growth_ge p w
  have hd : (d1:ℚ) + 1 ≤ (d2:ℚ) := by exact_mod_cast hlt
  have b1 := round_to_bounds 4 (0.002 + adjusted_growth p w * d1)
  have b2 := round_to_bounds 4 (0.002 + adjusted_growth p w * d2)
  have key : adjusted_growth p w * d1 + 0.015876 ≤ adjusted_growth p w * d2 := by
    have hmul : (0.015876:ℚ) * 1 ≤ adjusted_growth p w * ((d2:ℚ) - d1) :=
      mul_le_mul hg (by linarith) (by norm_num) (by linarith)
    have expand : adjusted_growth p w * ((d2:ℚ) - d1)
        = adjusted_growth p w * d2 - adjusted_growth p w * d1 := by ring
    linarith [hmul, expand.le, expand.ge]
  simp only [predict_growth]
  norm_num at b1 b2 ⊢
  linarith

/-- Witness for C7: at the neutral pond, the size after 5 days strictly
exceeds the size after 3 days. -/
theorem c7_witness :
    (0:ℤ) ≤ 3 ∧ (3:ℤ) < 5
    ∧ (predict_growth pondC none 3).estimated_size < (predict_growth pondC none 5).estimated_size :=
  ⟨by norm_num, by norm_num, c7_growth_monotone pondC none 3 5 (by norm_num) (by norm_num)⟩

/-- Claim C1 counterexample: for the validated pond `pondA` (unrounded
population 1287.75, rounded 1288, size 1.388 g) the biomass the code returns,
1.7874 kg, differs from the value the claim prescribes,
round(1288 × 1.388, 2) / 1000 = 1.78774 kg: the code multiplies the UNROUNDED
population by the size. -/
theorem c1_counterexample :
    validate_input pondA 3888000 = []
    ∧ (estimate_biomass pondA (predict_growth pondA none 45) 3888000).estimated_biomass
      ≠ round_to 2
          (((estimate_biomass pondA (predict_growth pondA none 45) 3888000).estimated_population : ℚ)
            * (predict_growth pondA none 45).estimated_size) / 1000 := by
  constructor
  · norm_num [validate_input, pondA]
  · norm_num [estimate_biomass, estimate_survival_rate, predict_growth, adjusted_growth,
      daysBetween, round_to, pyRound, pondA]

/-- Claim C1 (amended): `estimatedPopulation` is the rounded integer, but
`estimatedBiomassKg` is `round(unroundedPopulation × estimatedSizeGrams, 2) ÷ 1000`
computed from the UNROUNDED product `area × stockingDensity × survivalRate`;
the biomass in grams stays within 0.005 g of that unrounded product times the
size. -/
theorem c1_amended_biomass (p : PondParameters) (g : GrowthPrediction) (t : ℚ) :
    (estimate_biomass p g t).estimated_population
        = pyRound (p.area * p.stocking_density * estimate_survival_rate p t)
    ∧ (estimate_biomass p g t).estimated_biomass
        = round_to 2 ((p.area * p.stocking_density * estimate_survival_rate p t)
            * g.estimated_size) / 1000
    ∧ |1000 * (estimate_biomass p g t).estimated_biomass
        - (p.area * p.stocking_density * estimate_survival_rate p t) * g.estimated_size|
        ≤ 1 / 200 := by
  refine ⟨rfl, rfl, ?_⟩
  simp only [estimate_biomass]
  have hb := round_to_bounds 2
    ((p.area * p.stocking_density * estimate_survival_rate p t) * g.estimated_size)
  rw [show (1000:ℚ) * (round_to 2 ((p.area * p.stocking_density * estimate_survival_rate p t)
      * g.estimated_size) / 1000)
    = round_to 2 ((p.area * p.stocking_density * estimate_survival_rate p t)
      * g.estimated_size) from by ring]
  rw [abs_le]
  norm_num at hb ⊢
  exact ⟨by linarith, by linarith⟩

/-- Claim C3 counterexample: with density 40, depth 2.0 and 35 °C weather the
adjusted rate is 0.020482 g/day, rounded to 0.0205; the code returns
weekly = round(0.020482 × 7, 4) = 0.1434 ≠ 0.0205 × 7 = 0.1435 and
size = round(0.002 + 0.020482 × 100, 4) = 2.0502 ≠
round(0.002 + 0.0205 × 100, 4) = 2.052: downstream outputs use the UNROUNDED
rate, not the rounded daily value. -/
theorem c3_counterexample :
    (predict_growth pondB (some weatherHot) 100).weekly_growth
        ≠ (predict_growth pondB (some weatherHot) 100).daily_growth * 7
    ∧ (predict_growth pondB (some weatherHot) 100).estimated_size
        ≠ round_to 4 (0.002 + (predict_growth pondB (some weatherHot) 100).daily_growth * 100) := by
  constructor <;>
    norm_num [predict_growth, adjusted_growth, round_to, pyRound, pondB, weatherHot]

/-- Claim C3 (amended): all three growth outputs are computed from the
UNROUNDED adjusted rate — daily = round(g, 4), weekly = round(g × 7, 4),
size = round(0.002 + g × days, 4) — so weekly can differ from
7 × dailyGrowthGrams, though by at most 0.0004. -/
theorem c3_amended_growth (p : PondParameters) (w : Option WeatherData) (d : ℤ) :
    (predict_growth p w d).daily_growth = round_to 4 (adjusted_growth p w)
    ∧ (predict_growth p w d).weekly_growth = round_to 4 (adjusted_growth p w * 7)
    ∧ (predict_growth p w d).estimated_size = round_to 4 (0.002 + adjusted_growth p w * d)
    ∧ |(predict_growth p w d).weekly_growth - 7 * (predict_growth p w d).daily_growth|
        ≤ 1 / 2500 := by
  refine ⟨rfl, rfl, rfl, ?_⟩
  have h1 := round_to_bounds 4 (adjusted_growth p w)
  have h2 := round_to_bounds 4 (adjusted_growth p w * 7)
  simp only [predict_growth]
  rw [abs_le]
  norm_num at h1 h2 ⊢
  exact ⟨by linarith, by linarith⟩

/-- Claim C8 counterexample: at biomass 0.11 kg the daily feed is
round(0.0033, 2) = 0 ≠ 0.03 × 0.11; and scaling the biomass by 10 gives
round(0.033, 2) = 0.03 ≠ 10 × 0: exact proportionality and homogeneity both
fail because of the 2-decimal rounding. -/
theorem c8_counterexample :
    (calculate_feed 0.11).daily_feed_kg ≠ 0.03 * 0.11
    ∧ (calculate_feed (10 * 0.11)).daily_feed_kg ≠ 10 * (calculate_feed 0.11).daily_feed_kg := by
  constructor <;> norm_num [calculate_feed, round_to, pyRound]

/-- Claim C8 (amended): dailyFeedKg = round(estimatedBiomassKg × 0.03, 2),
which tracks the exact 3 % line 0.03 × b within 0.005 kg; exact linearity and
homogeneity hold only before the final rounding. -/
theorem c8_amended_feed (b : ℚ) :
    (calculate_feed b).daily_feed_kg = round_to 2 (b * 0.03)
    ∧ |(calculate_feed b).daily_feed_kg - 0.03 * b| ≤ 1 / 200 := by
  refine ⟨rfl, ?_⟩
  have h := round_to_bounds 2 (b * 0.03)
  simp only [calculate_feed]
  rw [abs_le]
  norm_num at h ⊢
  exact ⟨by linarith, by linarith⟩

/-- Claim C2 (code behaviour at the failing input): with the clock advancing
one second (from epoch second 5270399 to 5270400, crossing the 61st-day
boundary) between the orchestrator's `datetime.now()` and the survival
estimator's own `datetime.now()`, the report says 60 days of culture while the
survival rate 0.83 reflects 61 days; re-reading the clock at the first instant
gives 0.85, so the consumers did NOT observe one shared daysOfCulture. -/
theorem c2_clock_slip_eval :
    (analyze_pond pondC none 5270399 5270400 5270399).days_of_culture = 60
    ∧ (analyze_pond pondC none 5270399 5270400 5270399).biomass_estimation.survival_rate = 0.83
    ∧ estimate_survival_rate pondC 5270399 = 0.85 := by
  refine ⟨?_, ?_, ?_⟩
  · norm_num [analyze_pond, daysBetween, pondC]
  · norm_num [analyze_pond, estimate_biomass, estimate_survival_rate, daysBetween,
      round_to, pyRound, pondC]
  · norm_num [estimate_survival_rate, daysBetween, round_to, pyRound, pondC]

/-- Claim C4 (amended): the analysis is deterministic given the clock — the
report depends on the clock readings only through the whole-day counts, so two
invocations with identical parameters, identical weather, and clock readings
falling on the same culture day produce identical reports. -/
theorem c4_amended_deterministic (p : PondParameters) (w : Option WeatherData)
    (t1 t2 t3 s1 s2 s3 : ℚ)
    (h1 : daysBetween p.culture_start_date t1 = daysBetween p.culture_start_date s1)
    (h2 : daysBetween p.culture_start_date t2 = daysBetween p.culture_start_date s2)
    (h3 : daysBetween p.culture_start_date t3 = daysBetween p.culture_start_date s3) :
    analyze_pond p w t1 t2 t3 = analyze_pond p w s1 s2 s3 := by
  have hs : estimate_survival_rate p t2 = estimate_survival_rate p s2 := by
    simp only [estimate_survival_rate, h2]
  have hb : ∀ g, estimate_biomass p g t2 = estimate_biomass p g s2 := fun g => by
    simp only [estimate_biomass, hs]
  have hc : calculate_confidence p w t3 = calculate_confidence p w s3 := by
    simp only [calculate_confidence, h3]
  simp only [analyze_pond, h1, hb, hc]

/-- Claim C4 counterexample: two invocations with identical PondParameters and
identical (absent) weather, one at culture day 50 and one a day later, return
reports that differ already in `days_of_culture`: the report depends on the
hidden clock, so the claim's unconditional bit-identity fails. -/
theorem c4_counterexample :
    (analyze_pond pondC none 4320000 4320000 4320000).days_of_culture
      ≠ (analyze_pond pondC none 4406400 4406400 4406400).days_of_culture := by
  norm_num [analyze_pond, daysBetween, pondC]

/-- Witness for the amended C4: two invocations ten seconds apart within the
same culture day yield the same report. -/
theorem c4_witness :
    daysBetween pondC.culture_start_date 4320000 = daysBetween pondC.culture_start_date 4320010
    ∧ analyze_pond pondC none 4320000 4320000 4320000
      = analyze_pond pondC none 4320010 4320010 4320010 := by
  have h : daysBetween pondC.culture_start_date 4320000
      = daysBetween pondC.culture_start_date 4320010 := by
    norm_num [daysBetween, pondC]
  exact ⟨h, c4_amended_deterministic pondC none 4320000 4320000 4320000 4320010 4320010 4320010 h h h⟩

/-! ## Validator count helpers and boundary ponds -/

theorem count_ite_singleton_ne (m s : String) (h : ¬ s = m) (c : Prop) [Decidable c] :
    List.count m (if c then ([] : List String) else [s]) = 0 := by
  split_ifs
  · simp
  · simp only [List.count_eq_zero, List.mem_singleton]
    exact fun hh => h hh.symm

theorem count_ite_singleton_ne2 (m s : String) (h : ¬ s = m) (c : Prop) [Decidable c] :
    List.count m (if c then [s] else ([] : List String)) = 0 := by
  split_ifs
  · simp only [List.count_eq_zero, List.mem_singleton]
    exact fun hh => h hh.symm
  · simp

theorem count_ite_singleton_eq (m : String) (c : Prop) [Decidable c] :
    List.count m (if c then ([] : List String) else [m]) = if c then 0 else 1 := by
  split_ifs
  · simp
  · simp

/-- A pond sitting exactly on range boundaries: secchi 10, pH 9.0, area 100,
depth 2.5, density 150. -/
def pondBoundary : PondParameters :=
  { area := 100, depth := 2.5, stocking_density := 150, culture_start_date := 0,
    water_color := "Clear", shrimp_behavior := "Active", secchi_disk := 10,
    ph := 9.0, location := "Ranipet" }

/-- A pond whose only violation is stocking density 151, one unit above 150. -/
def pondOneOut : PondParameters :=
  { area := 1000, depth := 1.5, stocking_density := 151, culture_start_date := 0,
    water_color := "Clear", shrimp_behavior := "Active", secchi_disk := 30,
    ph := 7.5, location := "Ranipet" }

/-- A pond violating all five numeric ranges at once. -/
def pondAllOut : PondParameters :=
  { area := 99, depth := 0.7, stocking_density := 14, culture_start_date := 0,
    water_color := "Clear", shrimp_behavior := "Active", secchi_disk := 9,
    ph := 5.0, location := "Ranipet" }

/-- Claim C6: each numeric range boundary is inclusive and each range
violation contributes its message exactly once — for every pond the number of
occurrences of each range message in the validator's output is 1 exactly when
the field is out of its (inclusive) range, a pond exactly on the boundaries
validates to the empty list, a single out-by-one field yields exactly its own
message, and five simultaneous violations all surface together in one list. -/
theorem c6_validator_ranges :
    (∀ (p : PondParameters) (t : ℚ),
      (validate_input p t).count "secchi_disk must be between 10 and 60"
        = (if 10 ≤ p.secchi_disk ∧ p.secchi_disk ≤ 60 then 0 else 1)
      ∧ (validate_input p t).count "ph must be between 6.0 and 9.0"
        = (if 6.0 ≤ p.ph ∧ p.ph ≤ 9.0 then 0 else 1)
      ∧ (validate_input p t).count "area must be between 100 and 10000"
        = (if 100 ≤ p.area ∧ p.area ≤ 10000 then 0 else 1)
      ∧ (validate_input p t).count "depth must be between 0.8 and 2.5"
        = (if 0.8 ≤ p.depth ∧ p.depth ≤ 2.5 then 0 else 1)
      ∧ (validate_input p t).count "stocking_density must be between 15 and 150"
        = (if 15 ≤ p.stocking_density ∧ p.stocking_density ≤ 150 then 0 else 1))
    ∧ validate_input pondBoundary 0 = []
    ∧ validate_input pondOneOut 0 = ["stocking_density must be between 15 and 150"]
    ∧ validate_input pondAllOut 0 =
        ["secchi_disk must be between 10 and 60", "ph must be between 6.0 and 9.0",
         "area must be between 100 and 10000", "depth must be between 0.8 and 2.5",
         "stocking_density must be between 15 and 150"] := by
  refine ⟨fun p t => ⟨?_, ?_, ?_, ?_, ?_⟩, ?_, ?_, ?_⟩
  · simp [validate_input, List.count_append, count_ite_singleton_ne,
      count_ite_singleton_ne2, count_ite_singleton_eq]
  · simp [validate_input, List.count_append, count_ite_singleton_ne,
      count_ite_singleton_ne2, count_ite_singleton_eq]
  · simp [validate_input, List.count_append, count_ite_singleton_ne,
      count_ite_singleton_ne2, count_ite_singleton_eq]
  · simp [validate_input, List.count_append, count_ite_singleton_ne,
      count_ite_singleton_ne2, count_ite_singleton_eq]
  · simp [validate_input, List.count_append, count_ite_singleton_ne,
      count_ite_singleton_ne2, count_ite_singleton_eq]
  · norm_num [validate_input, pondBoundary]
  · norm_num [validate_input, pondOneOut]
  · norm_num [validate_input, pondAllOut]
